import Mathlib

/-!
Verification of the functiomed voice-agent backend against its design
specification.  The Python sources are shallowly embedded as executable
Lean definitions:

* `database/db.py` — the Slot Store (slot seeding, transactional booking);
* `voice_agent/state.py` — `ConversationState` and `BookingSession`;
* `voice_agent/agent.py` — parsers, the response table and the
  `process_message` state machine;
* `embedding/embedding.py` — query-intent classification and the hybrid
  retrieval/reranking pipeline.

External collaborators (the SQLite engine, the embedding model, the
cross-encoder, the LLM, the calendar) are modelled as oracle parameters,
exactly as the specification treats them (black-box scoring / completion
functions).  Machine-level details that the spec places out of scope
(Python floats are modelled as rationals, Python string hashing as string
equality) are noted where they occur.
-/

/-! ## Python string primitives used by the sources -/

/-- Embedding of Python `str.lower()` restricted to the alphabet the
sources use: ASCII letters plus the German umlauts appearing in the
keyword tables. -/
def pyLowerChar (c : Char) : Char :=
  if c = 'Ä' then 'ä' else if c = 'Ö' then 'ö' else if c = 'Ü' then 'ü' else c.toLower

def pyLower (s : String) : String :=
  String.mk (s.toList.map pyLowerChar)

/-- Embedding of Python `str.upper()` on the same alphabet (used by
`str.title()`). -/
def pyUpperChar (c : Char) : Char :=
  if c = 'ä' then 'Ä' else if c = 'ö' then 'Ö' else if c = 'ü' then 'Ü' else c.toUpper

/-- Here `occursIn n h` is Python `n in h` on character lists. -/
def occursIn : List Char → List Char → Bool
  | n, [] => n == []
  | n, c :: t => n.isPrefixOf (c :: t) || occursIn n (t)

/-- Python substring test `needle in hay`. -/
def pySubstr (needle hay : String) : Bool :=
  occursIn needle.toList hay.toList

/-- Python `str.split()` with no argument: split on whitespace runs,
dropping empty tokens (structurally recursive so that concrete inputs
evaluate inside the kernel). -/
def splitWsAux : List Char → List Char → List String
  | [], acc => if acc = [] then [] else [String.mk acc.reverse]
  | c :: rest, acc =>
    if c.isWhitespace then
      (if acc = [] then [] else [String.mk acc.reverse]) ++ splitWsAux rest []
    else splitWsAux rest (c :: acc)

def pySplit (s : String) : List String :=
  splitWsAux s.toList []

/-- Python `str.strip()`. -/
def pyStrip (s : String) : String :=
  String.mk (((s.toList.dropWhile Char.isWhitespace).reverse.dropWhile
    Char.isWhitespace).reverse)

/-- Python `sep.join(parts)`. -/
def pyJoin (sep : String) : List String → String
  | [] => ""
  | [x] => x
  | x :: rest => x ++ sep ++ pyJoin sep rest

/-- Python `int(...)` on a plain digit string. -/
def pyInt (s : String) : Nat :=
  s.toList.foldl (fun n c => n * 10 + (c.toNat - 48)) 0

/-- Python `str.startswith`. -/
def strStartsWith (s pre : String) : Bool :=
  pre.toList.isPrefixOf s.toList

/-- Python `str.zfill(2)` on the short digit strings the agent builds. -/
def zfill2 (s : String) : String :=
  if s.length < 2 then "0" ++ s else s

/-- Characters counted as `\w` by the regexes in the sources (ASCII
alphanumerics, underscore, and the German letters present in the data). -/
def isWordChar (c : Char) : Bool :=
  c.isAlphanum || c = '_' || c = 'ä' || c = 'ö' || c = 'ü' || c = 'ß'

/-- A `\b` word boundary immediately after a word character: the rest of
the input is empty or starts with a non-word character. -/
def boundaryAfter : List Char → Bool
  | [] => true
  | c :: _ => !isWordChar c

/-! ## Slot Store — `database/db.py`

The SQLite tables are embedded as lists of records.  `available_slots`
rows carry the `UNIQUE(date, time, service)` triple and the `is_booked`
flag; `appointments` rows carry the confirmed-booking fields
(`created_at`, being wall-clock input from the database engine, is
omitted from the record). -/

structure SlotRow where
  id : Nat
  date : String
  time : String
  service : String
  isBooked : Bool
deriving DecidableEq, Repr

structure AppointmentRow where
  id : Nat
  name : String
  phone : String
  service : String
  date : String
  time : String
  status : String
  roomId : Option String
deriving DecidableEq, Repr

structure DBState where
  slots : List SlotRow
  appointments : List AppointmentRow
  /-- The rowid SQLite would assign to the next inserted appointment. -/
  nextApptId : Nat
deriving DecidableEq, Repr

/-- The result dictionary of `book_appointment`: success with the new
appointment id, or failure with an error message. -/
structure BookResult where
  success : Bool
  appointmentId : Option Nat := none
  error : Option String := none
deriving DecidableEq, Repr

/-- SQL `WHERE date = ? AND time = ? AND service = ?` with parameters that
may be NULL (a NULL parameter matches no row, per SQL three-valued
logic). -/
def slotMatches (dateStr timeStr service : Option String) (r : SlotRow) : Bool :=
  dateStr == some r.date && timeStr == some r.time && service == some r.service

/-- Embedding of `db.book_appointment`: marks every slot matching
`(date, time, service)` as booked, then inserts the appointment row.
Both writes commit together; if the insert violates a constraint the
transaction rolls back and the original state is returned.  The only
constraint the insert can violate is `NOT NULL` on
`name, phone, service, date, time` (the `appointments` table has no
unique constraint), so the insert fails exactly when one of those five
parameters is NULL. -/
def book_appointment (db : DBState)
    (name phone service dateStr timeStr roomId : Option String) :
    BookResult × DBState :=
  let slots' := db.slots.map fun r =>
    if slotMatches dateStr timeStr service r then { r with isBooked := true } else r
  match name, phone, service, dateStr, timeStr with
  | some n, some p, some sv, some d, some t =>
    (⟨true, some db.nextApptId, none⟩,
     { slots := slots',
       appointments := db.appointments ++
         [⟨db.nextApptId, n, p, sv, d, t, "confirmed", roomId⟩],
       nextApptId := db.nextApptId + 1 })
  | _, _, _, _, _ =>
    (⟨false, none, some "NOT NULL constraint failed"⟩, db)

/-- Python truthiness of an optional string (`if service:`). -/
def truthyStr : Option String → Bool
  | none => false
  | some s => s ≠ ""

/-- String comparison used to embed SQLite `ORDER BY time` (BINARY
collation on the ASCII `HH:MM` strings). -/
def timeLe (a b : SlotRow) : Bool :=
  compare a.time b.time ≠ Ordering.gt

/-- Embedding of `db.get_available_slots`: free slots of a date, optionally filtered
by service, ordered by time. -/
def get_available_slots (db : DBState) (dateStr : String) (service : Option String) :
    List SlotRow :=
  let rows :=
    if truthyStr service then
      db.slots.filter fun r =>
        r.date == dateStr && some r.service == service && r.isBooked == false
    else
      db.slots.filter fun r => r.date == dateStr && r.isBooked == false
  rows.mergeSort timeLe

/-- A store state in which the single `(2025-03-20, 10:00, massage)` slot
is already booked. -/
def c1DB : DBState :=
  { slots := [⟨1, "2025-03-20", "10:00", "massage", true⟩],
    appointments := [],
    nextApptId := 1 }

/-- A store with one free slot, used to instantiate C2. -/
def c2DB : DBState :=
  { slots := [⟨1, "2025-03-21", "09:00", "physiotherapy", false⟩],
    appointments := [],
    nextApptId := 1 }

/-! ## Conversation state — `voice_agent/state.py` -/

/-- The `ConversationState` enum. -/
inductive ConversationState where
  | idle
  | greeting
  | intentDetection
  | faq
  | collectService
  | collectDate
  | showSlots
  | collectSlot
  | collectName
  | collectPhone
  | confirmBooking
  | bookingDone
deriving DecidableEq, Repr

/-- Embedding of `BookingSession` — per-room conversation memory.  `state_history` is
kept most-recent-last, exactly like the Python list that `transition_to`
appends to and `go_back` pops from. -/
structure BookingSession where
  roomId : String
  language : String := "en"
  state : ConversationState := .idle
  stateHistory : List ConversationState := []
  service : Option String := none
  date : Option String := none
  time : Option String := none
  name : Option String := none
  phone : Option String := none
  availableSlots : List SlotRow := []
  preFaqState : Option ConversationState := none
deriving DecidableEq, Repr

/-- Embedding of `BookingSession.transition_to`: push the outgoing state, switch to
the new one. -/
def transition_to (s : BookingSession) (newState : ConversationState) : BookingSession :=
  { s with stateHistory := s.stateHistory ++ [s.state], state := newState }

/-- Embedding of `BookingSession.go_back`: pop the most recent prior state if any,
returning whether the pop happened. -/
def go_back (s : BookingSession) : Bool × BookingSession :=
  match s.stateHistory.getLast? with
  | some prev =>
    (true, { s with state := prev, stateHistory := s.stateHistory.dropLast })
  | none => (false, s)

/-- Embedding of `BookingSession.reset_booking`: clear all booking data, history and
interrupt memory; force state to IDLE. -/
def reset_booking (s : BookingSession) : BookingSession :=
  { s with
    service := none, date := none, time := none, name := none, phone := none,
    availableSlots := [], stateHistory := [], preFaqState := none,
    state := .idle }

/-- Embedding of `BookingSession.summary` (language-aware confirmation text; Python
f-strings render a missing field `None`). -/
def pyStr : Option String → String
  | none => "None"
  | some s => s

def sessionSummary (s : BookingSession) : String :=
  if s.language = "de" then
    "Name: " ++ pyStr s.name ++ "\n" ++
    "Service: " ++ pyStr s.service ++ "\n" ++
    "Datum: " ++ pyStr s.date ++ " um " ++ pyStr s.time ++ " Uhr\n" ++
    "Telefon: " ++ pyStr s.phone ++ "\n"
  else
    "Name: " ++ pyStr s.name ++ "\n" ++
    "Service: " ++ pyStr s.service ++ "\n" ++
    "Date: " ++ pyStr s.date ++ " at " ++ pyStr s.time ++ "\n" ++
    "Phone: " ++ pyStr s.phone ++ "\n"

/-- A sequence of forward `transition_to` calls. -/
def applyTransitions (s : BookingSession) (l : List ConversationState) : BookingSession :=
  l.foldl transition_to s

/-- The session after `n` `go_back` calls. -/
def goBackN (s : BookingSession) : Nat → BookingSession
  | 0 => s
  | n + 1 => (go_back (goBackN s n)).2

/-- Whether each of the first `n` successive `go_back` calls succeeded. -/
def goBackNOk (s : BookingSession) : Nat → Bool
  | 0 => true
  | n + 1 => goBackNOk s n && (go_back (goBackN s n)).1

/-! ## Input parsers — `voice_agent/agent.py`, sections A–C -/

/-- Embedding of `SERVICE_ALIASES`, in dict insertion order (the duplicated
`"massage"` key keeps its first position, as a Python dict does). -/
def serviceAliases : List (String × String) :=
  [("physio", "physiotherapy"),
   ("physiotherapy", "physiotherapy"),
   ("physical therapy", "physiotherapy"),
   ("massage", "massage"),
   ("osteo", "osteopathy"),
   ("osteopathy", "osteopathy"),
   ("mental", "mental coaching"),
   ("mental coaching", "mental coaching"),
   ("coaching", "mental coaching"),
   ("ergo", "ergotherapy"),
   ("ergotherapy", "ergotherapy"),
   ("occupational", "ergotherapy"),
   ("acupuncture", "acupuncture"),
   ("nutrition", "nutrition counseling"),
   ("dietitian", "nutrition counseling"),
   ("physiotherapie", "physiotherapy"),
   ("krankengymnastik", "physiotherapy"),
   ("osteopathie", "osteopathy"),
   ("mentaltraining", "mental coaching"),
   ("mental training", "mental coaching"),
   ("ergotherapie", "ergotherapy"),
   ("akupunktur", "acupuncture"),
   ("ernährung", "nutrition counseling"),
   ("ernährungsberatung", "nutrition counseling"),
   ("ernaehrung", "nutrition counseling")]

/-- Embedding of `detect_service`: first alias occurring as a substring of the
lowered, stripped text wins. -/
def detect_service (text : String) : Option String :=
  let textLower := pyStrip (pyLower text)
  serviceAliases.findSome? fun p =>
    if pySubstr p.1 textLower then some p.2 else none

def germanWords : List String :=
  ["ich", "bitte", "danke", "möchte", "mochte", "termin",
   "buchen", "hallo", "ja", "nein", "wie", "können", "konnen",
   "wann", "welche", "einen", "eine", "der", "die", "das",
   "für", "fur", "und", "oder", "mit", "von", "auf", "ist",
   "guten", "morgen", "tag", "abend"]

/-- Embedding of `detect_language`: whole-token German keyword scoring, threshold 2. -/
def detect_language (text : String) : String :=
  let tokens := pySplit (pyLower text)
  let score := germanWords.countP fun w => tokens.contains w
  if score ≥ 2 then "de" else "en"

def cancelWords : List String :=
  ["cancel", "stop", "abort", "quit", "exit",
   "abbrechen", "stopp", "aufhören", "beenden"]

def backWords : List String :=
  ["go back", "back", "previous", "zurück", "zuruck", "nochmal"]

def bookWords : List String :=
  ["book", "appointment", "reserve", "schedule", "buchen",
   "termin", "anmelden", "reservieren", "möchte einen",
   "make an appointment", "book an appointment"]

/-- Embedding of `detect_intent`: cancel / go-back / booking keywords (substring
match on the lowered text), then service names, else FAQ. -/
def detect_intent (text : String) : String :=
  let textLower := pyLower text
  if cancelWords.any fun w => pySubstr w textLower then "cancel"
  else if backWords.any fun w => pySubstr w textLower then "go_back"
  else if bookWords.any fun w => pySubstr w textLower then "book"
  else if (detect_service text).isSome then "book"
  else "faq"

/-! ### Regex scanners

Each `re.search` call in the sources is embedded as a leftmost-match
scanner over the character list, with the same backtracking preference
order as the Python regex engine (greedy quantifiers, alternatives tried
left to right). -/

/-- Generic leftmost search: try `attempt` at each position whose
predecessor is not a word character (the patterns all begin with
`\b` followed by a digit, so the attempt itself checks the first
character). -/
def scanLeftmost (attempt : List Char → Option α) : List Char → Bool → Option α
  | [], _ => none
  | c :: rest, prevWord =>
    match (if prevWord then none else attempt (c :: rest)) with
    | some r => some r
    | none => scanLeftmost attempt rest (isWordChar c)

/-- The greedy 1-2 digit quantifier: the two-digit reading first, then
the one-digit reading, each paired with the unscanned remainder. -/
def digits12 : List Char → List (String × List Char)
  | d1 :: rest =>
    if d1.isDigit then
      match rest with
      | d2 :: rest2 =>
        if d2.isDigit then
          [(String.mk [d1, d2], rest2), (String.mk [d1], rest)]
        else [(String.mk [d1], rest)]
      | [] => [(String.mk [d1], [])]
    else []
  | [] => []

/-- Continuation of the `detect_time` pattern after the hour digits:
an optional colon-plus-two-digit minute group then a word boundary,
preferring the reading that takes the minute group. -/
def timeCont (hour : String) (rest : List Char) : Option (String × Option String) :=
  (match rest with
   | c :: m1 :: m2 :: rest' =>
     if c = ':' ∧ m1.isDigit ∧ m2.isDigit ∧ boundaryAfter rest' = true then
       some (hour, some (String.mk [m1, m2]))
     else none
   | _ => none)
  <|> (if boundaryAfter rest then some (hour, none) else none)

/-- One attempt of the time pattern (boundary, 1-2 hour digits,
optional colon and 2 minute digits, boundary) at the current position. -/
def timeAttempt (l : List Char) : Option (String × Option String) :=
  (digits12 l).findSome? fun p => timeCont p.1 p.2

/-- The `re.search` of the time pattern over the whole text. -/
def searchTimeNumber (text : String) : Option (String × Option String) :=
  scanLeftmost timeAttempt text.toList false

/-- The separator class: dot, dash or slash. -/
def isDateSep (c : Char) : Bool :=
  c = '.' || c = '-' || c = '/'

/-- One attempt of the ISO date pattern (4 digits, dash, 2 digits,
dash, 2 digits, tight word boundaries). -/
def isoAttempt : List Char → Option String
  | a :: b :: c :: d :: s1 :: e :: f :: s2 :: g :: h :: rest =>
    if a.isDigit ∧ b.isDigit ∧ c.isDigit ∧ d.isDigit ∧ s1 = '-' ∧
       e.isDigit ∧ f.isDigit ∧ s2 = '-' ∧ g.isDigit ∧ h.isDigit ∧
       boundaryAfter rest = true then
      some (String.mk [a, b, c, d, '-', e, f, '-', g, h])
    else none
  | _ => none

/-- One attempt of the European date pattern (1-2 day digits, separator,
1-2 month digits, separator, 4 year digits, tight word boundaries),
returning `(day, month, year)`. -/
def euroYearAttempt (l : List Char) : Option (String × String × String) :=
  (digits12 l).findSome? fun dp =>
    match dp.2 with
    | s1 :: r2 =>
      if isDateSep s1 then
        (digits12 r2).findSome? fun mp =>
          match mp.2 with
          | s2 :: y1 :: y2 :: y3 :: y4 :: r4 =>
            if isDateSep s2 ∧ y1.isDigit ∧ y2.isDigit ∧ y3.isDigit ∧ y4.isDigit ∧
               boundaryAfter r4 = true then
              some (dp.1, mp.1, String.mk [y1, y2, y3, y4])
            else none
          | _ => none
      else none
    | [] => none

/-- One attempt of the year-less day/month pattern (1-2 day digits,
separator, 1-2 month digits), returning
`(day, month)`. -/
def euroNoYearAttempt (l : List Char) : Option (String × String) :=
  (digits12 l).findSome? fun dp =>
    match dp.2 with
    | s1 :: r2 =>
      if isDateSep s1 then
        (digits12 r2).findSome? fun mp =>
          if boundaryAfter mp.2 then some (dp.1, mp.1) else none
      else none
    | [] => none

/-- One attempt of the written-month pattern (1-2 day digits, optional
whitespace, optional dot, optional whitespace, the month name, word
boundary) for a fixed month name. -/
def monthAttempt (monthName : List Char) (l : List Char) : Option String :=
  (digits12 l).findSome? fun dp =>
    let r2 := dp.2.dropWhile Char.isWhitespace
    let r3 := match r2 with
      | '.' :: t => t
      | _ => r2
    let r4 := r3.dropWhile Char.isWhitespace
    if monthName.isPrefixOf r4 ∧ boundaryAfter (r4.drop monthName.length) = true then
      some dp.1
    else none

/-- Embedding of `month_names`, in dict insertion order with duplicated German keys
(`august`, `september`, `november`) collapsed onto their first
occurrence. -/
def monthNames : List (String × Nat) :=
  [("january", 1), ("february", 2), ("march", 3), ("april", 4),
   ("may", 5), ("june", 6), ("july", 7), ("august", 8),
   ("september", 9), ("october", 10), ("november", 11), ("december", 12),
   ("januar", 1), ("februar", 2), ("märz", 3), ("maerz", 3),
   ("mai", 5), ("juni", 6), ("juli", 7), ("oktober", 10), ("dezember", 12)]

/-- The values `detect_date` obtains from `datetime.date.today()`: the
calendar is an external collaborator, so the four derived quantities are
inputs of the model. -/
structure TodayCtx where
  todayStr : String
  tomorrowStr : String
  nextWeekStr : String
  year : String
deriving Repr

/-- Embedding of `detect_date`: relative terms, ISO, day.month.year, day/month
without year, then written month names. -/
def detect_date (td : TodayCtx) (text : String) : Option String :=
  let textLow := pyStrip (pyLower text)
  if ["today", "heute", "jetzt"].any (fun w => pySubstr w textLow) then
    some td.todayStr
  else if ["tomorrow", "morgen"].any (fun w => pySubstr w textLow) then
    some td.tomorrowStr
  else if pySubstr "next week" textLow || pySubstr "nächste woche" textLow then
    some td.nextWeekStr
  else
    match scanLeftmost isoAttempt text.toList false with
    | some iso => some iso
    | none =>
      match scanLeftmost euroYearAttempt text.toList false with
      | some (day, month, year) => some (year ++ "-" ++ zfill2 month ++ "-" ++ zfill2 day)
      | none =>
        match scanLeftmost euroNoYearAttempt text.toList false with
        | some (day, month) => some (td.year ++ "-" ++ zfill2 month ++ "-" ++ zfill2 day)
        | none =>
          monthNames.findSome? fun mn =>
            (scanLeftmost (monthAttempt mn.1.toList) textLow.toList false).map fun dayStr =>
              td.year ++ "-" ++ zfill2 (toString mn.2) ++ "-" ++
                zfill2 (toString (pyInt dayStr))

/-- Embedding of `word_to_hour`, in dict insertion order. -/
def wordToHour : List (String × Nat) :=
  [("nine", 9), ("ten", 10), ("eleven", 11),
   ("twelve", 12), ("one", 13), ("two", 14),
   ("three", 15), ("four", 16), ("five", 17),
   ("neun", 9), ("zehn", 10), ("elf", 11),
   ("zwölf", 12), ("dreizehn", 13)]

def yesWordsSlot : List String :=
  ["yes", "ja", "ok", "that", "that one", "fine", "good"]

/-- The numeric branch of `detect_time`: exact `HH:MM` match against the
slot list, then hour-prefix match. -/
def timeNumericMatch (slots : List SlotRow) (hour minute : String) : Option String :=
  let candidate := hour ++ ":" ++ minute
  match slots.find? fun s => s.time == candidate with
  | some _ => some candidate
  | none => (slots.find? fun s => strStartsWith s.time (hour ++ ":")).map (·.time)

/-- The spelled-hour branch of `detect_time`: first word/slot pair whose
zero-filled hour prefixes a slot time. -/
def timeWordMatch (textLower : String) (slots : List SlotRow) : Option String :=
  wordToHour.findSome? fun wh =>
    if pySubstr wh.1 textLower then
      (slots.find? fun s => strStartsWith s.time (zfill2 (toString wh.2) ++ ":")).map (·.time)
    else none

/-- Embedding of `detect_time`: match the user utterance against the stored
available-slot list (exact `HH:MM`, hour-only, spelled hour word, or a
single-slot affirmative). -/
def detect_time (text : String) (availableSlots : List SlotRow) : Option String :=
  if availableSlots = [] then none
  else
    let numeric :=
      match searchTimeNumber text with
      | some (h, m) => timeNumericMatch availableSlots (zfill2 h) (m.getD "00")
      | none => none
    match numeric with
    | some t => some t
    | none =>
      match timeWordMatch (pyLower text) availableSlots with
      | some t => some t
      | none =>
        match availableSlots with
        | s₀ :: rest =>
          if rest = [] ∧ (yesWordsSlot.any fun w => pySubstr w (pyLower text)) then
            some s₀.time
          else none
        | [] => none

def yesWords : List String :=
  ["yes", "ja", "correct", "korrekt", "right", "stimmt",
   "confirm", "bestätigen", "yep", "yup", "sure", "ok", "okay"]

def noWords : List String :=
  ["no", "nein", "wrong", "falsch", "cancel", "abbrechen",
   "incorrect", "not right", "change"]

/-- Embedding of `detect_yes_no`. -/
def detect_yes_no (text : String) : Option String :=
  let t := pyLower text
  if yesWords.any fun w => pySubstr w t then some "yes"
  else if noWords.any fun w => pySubstr w t then some "no"
  else none

/-! ## Response builder — `voice_agent/agent.py`, section D -/

def lbraceChar : Char := Char.ofNat 123

def rbraceChar : Char := Char.ofNat 125

/-- The `responses` table of `R`, keyed name to (English, German). -/
def responsesList : List (String × String × String) :=
  [("welcome",
    ("Welcome to Functiomed! I can answer questions about our clinic or help you book an appointment. How can I help you today?",
     "Willkommen bei Functiomed! Ich kann Ihnen Fragen über unsere Klinik beantworten oder Ihnen helfen, einen Termin zu buchen. Wie kann ich Ihnen heute helfen?")),
   ("ask_service",
    ("Which service would you like to book? We offer physiotherapy, massage, osteopathy, mental coaching, ergotherapy, acupuncture, and nutrition counseling.",
     "Welchen Service möchten Sie buchen? Wir bieten Physiotherapie, Massage, Osteopathie, Mental Coaching, Ergotherapie, Akupunktur und Ernährungsberatung an.")),
   ("service_not_found",
    ("I didn\u0027t catch that service. Please choose from: physiotherapy, massage, osteopathy, mental coaching, or acupuncture.",
     "Den Service habe ich nicht verstanden. Bitte wählen Sie aus: Physiotherapie, Massage, Osteopathie, Mental Coaching oder Akupunktur.")),
   ("service_confirmed",
    ("Great, {service}! What date would you like? You can say tomorrow, or a specific date like March 15th.",
     "Sehr gut, {service}! Für welches Datum möchten Sie buchen? Sie können zum Beispiel morgen oder einen bestimmten Termin sagen.")),
   ("ask_date",
    ("What date would you like the appointment?",
     "Für welches Datum möchten Sie den Termin?")),
   ("date_not_found",
    ("I didn\u0027t catch the date. Please say something like tomorrow, or a date like March 15th.",
     "Das Datum habe ich nicht verstanden. Bitte sagen Sie zum Beispiel morgen oder den 15. März.")),
   ("no_slots",
    ("Sorry, there are no available slots for {service} on {date}. Would you like to try a different date?",
     "Es tut mir leid, für {service} am {date} sind keine Termine verfügbar. Möchten Sie ein anderes Datum versuchen?")),
   ("available_slots",
    ("On {date} we have these available times for {service}: {times}. Which time works for you?",
     "Am {date} sind folgende Zeiten für {service} verfügbar: {times}. Welche Zeit passt Ihnen?")),
   ("time_not_found",
    ("That time is not available. Please choose from: {times}.",
     "Diese Zeit ist nicht verfügbar. Bitte wählen Sie aus: {times}.")),
   ("ask_name",
    ("Perfect! What is your full name?",
     "Perfekt! Wie ist Ihr vollständiger Name?")),
   ("ask_phone",
    ("And your phone number?",
     "Und Ihre Telefonnummer?")),
   ("phone_invalid",
    ("Please provide a complete phone number, for example plus 41 79 123 45 67.",
     "Bitte nennen Sie eine vollständige Telefonnummer, zum Beispiel plus 41 79 123 45 67.")),
   ("confirm_booking",
    ("Let me confirm your appointment:\n{summary}\nShall I confirm this booking? Please say yes or no.",
     "Ich bestätige Ihren Termin:\n{summary}\nSoll ich diesen Termin buchen? Bitte sagen Sie ja oder nein.")),
   ("booking_success",
    ("Your appointment is confirmed! Is there anything else I can help you with?",
     "Ihr Termin ist bestätigt! Ihre Buchungsnummer ist . Kann ich Ihnen noch bei etwas helfen?")),
   ("booking_failed",
    ("I\u0027m sorry, there was a technical problem saving your appointment. Please call us directly at the clinic.",
     "Es tut mir leid, es gab ein technisches Problem beim Speichern Ihres Termins. Bitte rufen Sie uns direkt in der Klinik an.")),
   ("cancelled",
    ("Booking cancelled. How else can I help you?",
     "Buchung abgebrochen. Wie kann ich Ihnen sonst helfen?")),
   ("went_back",
    ("No problem, let\u0027s go back.",
     "Kein Problem, wir gehen einen Schritt zurück.")),
   ("at_beginning",
    ("We are already at the beginning. How can I help you?",
     "Wir sind bereits am Anfang. Wie kann ich Ihnen helfen?")),
   ("confirm_yes_no",
    ("Please say yes to confirm or no to cancel.",
     "Bitte sagen Sie ja zum Bestätigen oder nein zum Abbrechen.")),
   ("fallback",
    ("I\u0027m not sure I understood. Could you rephrase that?",
     "Ich bin mir nicht sicher, ob ich das verstanden habe. Könnten Sie das umformulieren?")),
   ("faq_resume_booking",
    ("I hope that answered your question! Now, back to your booking —",
     "Ich hoffe, das hat Ihre Frage beantwortet! Jetzt zurück zu Ihrer Buchung —"))]

/-- Embedding of `str.format(**kwargs)` on the response templates: substitute each
named placeholder; a placeholder missing from the arguments raises
`KeyError` (modelled as `none`).  The second argument is `none` while
copying literal text and `some acc` while reading a placeholder name. -/
def fmtScanAux (args : List (String × String)) :
    List Char → Option (List Char) → Option (List Char)
  | [], none => some []
  | [], some _ => none
  | c :: rest, none =>
    if c = lbraceChar then fmtScanAux args rest (some [])
    else (fmtScanAux args rest none).map fun tail => c :: tail
  | c :: rest, some acc =>
    if c = rbraceChar then
      match args.lookup (String.mk acc.reverse) with
      | some v => (fmtScanAux args rest none).map fun tail => v.toList ++ tail
      | none => none
    else fmtScanAux args rest (some (c :: acc))

/-- Embedding of `R(key, lang, **kwargs)`: template lookup with English fallback and
`KeyError`-tolerant formatting (on `KeyError` the template is returned
unformatted). -/
def R (key lang : String) (args : List (String × String)) : String :=
  let entry := responsesList.lookup key
  let fallbackEn : String :=
    match entry with
    | some p => p.1
    | none => "[" ++ key ++ "]"
  let primary : Option String :=
    match entry with
    | some p => if lang = "de" then some p.2 else if lang = "en" then some p.1 else none
    | none => none
  let template :=
    match primary with
    | some t => if t = "" then fallbackEn else t
    | none => fallbackEn
  match fmtScanAux args template.toList none with
  | some cs => String.mk cs
  | none => template

/-! ## Dialogue engine — `voice_agent/agent.py`, section E -/

/-- Python exceptions that can escape the embedded dialogue turn. -/
inductive PyErr where
  | attributeError
  | recursionError
deriving DecidableEq, Repr

/-- Attribute access `ConversationState.NAME`: the members defined in
`voice_agent/state.py`.  Accessing any other name raises
`AttributeError`. -/
def conversationStateAttr (name : String) : Option ConversationState :=
  if name = "IDLE" then some .idle
  else if name = "GREETING" then some .greeting
  else if name = "INTENT_DETECTION" then some .intentDetection
  else if name = "FAQ" then some .faq
  else if name = "COLLECT_SERVICE" then some .collectService
  else if name = "COLLECT_DATE" then some .collectDate
  else if name = "SHOW_SLOTS" then some .showSlots
  else if name = "COLLECT_SLOT" then some .collectSlot
  else if name = "COLLECT_NAME" then some .collectName
  else if name = "COLLECT_PHONE" then some .collectPhone
  else if name = "CONFIRM_BOOKING" then some .confirmBooking
  else if name = "BOOKING_DONE" then some .bookingDone
  else none

def stateAttr (name : String) : Except PyErr ConversationState :=
  match conversationStateAttr name with
  | some k => .ok k
  | none => .error .attributeError

/-- Embedding of `_prompt_for_current_state`: builds the prompt dictionary and looks
up the current state.  The dict literal evaluates every key expression in
order, and one of them, `ConversationState.COLLECT_EMAIL`, names a member
that does not exist in `ConversationState` — so evaluating the dict
raises `AttributeError` before the lookup can happen. -/
def prompt_for_current_state (s : BookingSession) : Except PyErr String := do
  let lang := s.language
  let k1 ← stateAttr "COLLECT_SERVICE"
  let v1 := R "ask_service" lang []
  let k2 ← stateAttr "COLLECT_DATE"
  let v2 := R "service_confirmed" lang [("service", s.service.getD "")]
  let k3 ← stateAttr "COLLECT_SLOT"
  let v3 :=
    if s.availableSlots ≠ [] then
      R "available_slots" lang
        [("date", s.date.getD ""), ("service", s.service.getD ""),
         ("times", pyJoin ", " ((s.availableSlots.take 5).map (·.time)))]
    else R "ask_date" lang []
  let k4 ← stateAttr "COLLECT_NAME"
  let v4 := R "ask_name" lang []
  let k5 ← stateAttr "COLLECT_EMAIL"
  let v5 := R "ask_email" lang [("name", s.name.getD "")]
  let k6 ← stateAttr "COLLECT_PHONE"
  let v6 := R "ask_phone" lang []
  let k7 ← stateAttr "CONFIRM_BOOKING"
  let v7 := R "confirm_booking" lang [("summary", sessionSummary s)]
  let prompts := [(k1, v1), (k2, v2), (k3, v3), (k4, v4), (k5, v5), (k6, v6), (k7, v7)]
  pure ((prompts.lookup s.state).getD (R "welcome" lang []))

/-- Python `str.title()` on the agent alphabet: a cased character is
uppercased after a non-cased character and lowercased otherwise. -/
def isCasedChar (c : Char) : Bool :=
  c.isAlpha || c = 'ä' || c = 'ö' || c = 'ü' || c = 'Ä' || c = 'Ö' || c = 'Ü' || c = 'ß'

def pyTitleAux : List Char → Bool → List Char
  | [], _ => []
  | c :: rest, prevCased =>
    (if isCasedChar c then (if prevCased then pyLowerChar c else pyUpperChar c) else c)
      :: pyTitleAux rest (isCasedChar c)

def pyTitle (s : String) : String :=
  String.mk (pyTitleAux s.toList false)

/-- Outcome of one turn: a reply string, or an uncaught exception. -/
inductive TurnOut where
  | reply (text : String)
  | exn (e : PyErr)
deriving DecidableEq, Repr

structure TurnResult where
  out : TurnOut
  session : BookingSession
  db : DBState
deriving DecidableEq, Repr

/-- The language-detection step at the top of `process_message`: in
IDLE/GREETING the detected language replaces the session language when it
changed. -/
def update_language (text : String) (s : BookingSession) : BookingSession :=
  if s.state = .idle ∨ s.state = .greeting then
    let detected := detect_language text
    if detected ≠ s.language then { s with language := detected } else s
  else s

/-- The IDLE/GREETING branch of `process_message`: booking intent starts
the service question, anything else is answered as FAQ through the RAG
pipeline and the session returns to IDLE. -/
def handle_start (rag : String → String) (text lang : String)
    (s : BookingSession) (db : DBState) : TurnResult :=
  if detect_intent text = "book" then
    ⟨.reply (R "ask_service" lang []), transition_to s .collectService, db⟩
  else
    let answer := rag text
    ⟨.reply answer, transition_to (transition_to s .faq) .idle, db⟩

/-- The FAQ branch: answer, then restore the pre-FAQ state (re-emitting
its prompt) or fall back to IDLE. -/
def handle_faq (rag : String → String) (text lang : String)
    (s : BookingSession) (db : DBState) : TurnResult :=
  let answer := rag text
  match s.preFaqState with
  | some p =>
    let s1 := { s with state := p, preFaqState := none }
    match prompt_for_current_state s1 with
    | .ok resumePrompt =>
      ⟨.reply (answer ++ "\n\n" ++ R "faq_resume_booking" lang [] ++ " " ++ resumePrompt),
       s1, db⟩
    | .error e => ⟨.exn e, s1, db⟩
  | none => ⟨.reply answer, { s with state := .idle }, db⟩

/-- The COLLECT_SERVICE branch, including the FAQ interrupt (save state,
answer, restore state, clear interrupt memory). -/
def handle_collect_service (rag : String → String) (text lang : String)
    (s : BookingSession) (db : DBState) : TurnResult :=
  if detect_intent text = "faq" ∧ detect_service text = none then
    let sA := { s with preFaqState := some s.state, state := .faq }
    let answer := rag text
    let sB := { sA with state := s.state, preFaqState := none }
    ⟨.reply (answer ++ "\n\n" ++ R "ask_service" lang []), sB, db⟩
  else
    match detect_service text with
    | none => ⟨.reply (R "service_not_found" lang []), s, db⟩
    | some sv =>
      ⟨.reply (R "service_confirmed" lang [("service", sv)]),
       transition_to { s with service := some sv } .collectDate, db⟩

/-- The COLLECT_DATE branch: FAQ interrupt, date parsing, slot query. -/
def handle_collect_date (rag : String → String) (td : TodayCtx) (text lang : String)
    (s : BookingSession) (db : DBState) : TurnResult :=
  if detect_intent text = "faq" ∧ detect_date td text = none then
    let sA := { s with preFaqState := some s.state, state := .faq }
    let answer := rag text
    let sB := { sA with state := s.state, preFaqState := none }
    ⟨.reply (answer ++ "\n\n" ++ R "ask_date" lang []), sB, db⟩
  else
    match detect_date td text with
    | none => ⟨.reply (R "date_not_found" lang []), s, db⟩
    | some parsedDate =>
      let slots := get_available_slots db parsedDate s.service
      if slots = [] then
        ⟨.reply (R "no_slots" lang [("service", pyStr s.service), ("date", parsedDate)]),
         s, db⟩
      else
        let s1 := transition_to
          { s with date := some parsedDate, availableSlots := slots } .collectSlot
        let times := pyJoin ", " ((slots.take 5).map (·.time))
        ⟨.reply (R "available_slots" lang
            [("date", parsedDate), ("service", pyStr s.service), ("times", times)]),
         s1, db⟩

/-- The COLLECT_SLOT branch: match the utterance against the stored
slot list. -/
def handle_collect_slot (text lang : String)
    (s : BookingSession) (db : DBState) : TurnResult :=
  match detect_time text s.availableSlots with
  | none =>
    ⟨.reply (R "time_not_found" lang
        [("times", pyJoin ", " ((s.availableSlots.take 5).map (·.time)))]),
     s, db⟩
  | some chosenTime =>
    ⟨.reply (R "ask_name" lang []),
     transition_to { s with time := some chosenTime } .collectName, db⟩

/-- The COLLECT_NAME branch. -/
def handle_collect_name (text lang : String)
    (s : BookingSession) (db : DBState) : TurnResult :=
  let name := pyTitle (pyStrip text)
  if name.length < 2 then ⟨.reply (R "ask_name" lang []), s, db⟩
  else
    ⟨.reply (R "ask_phone" lang []),
     transition_to { s with name := some name } .collectPhone, db⟩

/-- The COLLECT_PHONE branch. -/
def handle_collect_phone (text lang : String)
    (s : BookingSession) (db : DBState) : TurnResult :=
  let phone := String.mk (text.toList.filter fun c => c.isDigit || c = '+')
  if phone.length < 9 then ⟨.reply (R "phone_invalid" lang []), s, db⟩
  else
    let s1 := transition_to { s with phone := some phone } .confirmBooking
    ⟨.reply (R "confirm_booking" lang [("summary", sessionSummary s1)]), s1, db⟩

/-- The CONFIRM_BOOKING branch: yes invokes the booking transaction,
no cancels, anything else re-asks. -/
def handle_confirm_booking (text lang : String)
    (s : BookingSession) (db : DBState) : TurnResult :=
  let answer := detect_yes_no text
  if answer = some "yes" then
    let result := book_appointment db s.name s.phone s.service s.date s.time (some s.roomId)
    if result.1.success then
      let s1 := reset_booking (transition_to s .bookingDone)
      ⟨.reply (R "booking_success" lang
          [("appt_id", toString (result.1.appointmentId.getD 0))]), s1, result.2⟩
    else ⟨.reply (R "booking_failed" lang []), reset_booking s, result.2⟩
  else if answer = some "no" then
    ⟨.reply (R "cancelled" lang []), reset_booking s, db⟩
  else ⟨.reply (R "confirm_yes_no" lang []), s, db⟩

/-- Embedding of `process_message` with explicit recursion fuel.  The only recursive
call is the BOOKING_DONE branch, which first resets the session to IDLE,
so from any start state the recursion depth is at most one; exhausted
fuel stands for the Python `RecursionError`.  The RAG pipeline (`_ask_rag`,
which catches its own exceptions) and the calendar are oracle
parameters.  The universal cancel and go-back checks precede the
state dispatch, exactly as in the source. -/
def process_message_fuel (rag : String → String) (td : TodayCtx) :
    Nat → String → BookingSession → DBState → TurnResult
  | 0, _, s, db => ⟨.exn .recursionError, s, db⟩
  | fuel + 1, text, s0, db =>
    let state := s0.state
    let s := update_language text s0
    let lang := s.language
    if detect_intent text = "cancel" ∧ ¬(state = .idle ∨ state = .greeting) then
      ⟨.reply (R "cancelled" lang []), reset_booking s, db⟩
    else if detect_intent text = "go_back" then
      let went := (go_back s).1
      let s' := (go_back s).2
      if went then
        match prompt_for_current_state s' with
        | .ok p => ⟨.reply (R "went_back" lang [] ++ " " ++ p), s', db⟩
        | .error e => ⟨.exn e, s', db⟩
      else ⟨.reply (R "at_beginning" lang []), s', db⟩
    else if state = .idle ∨ state = .greeting then
      handle_start rag text lang s db
    else if state = .faq then
      handle_faq rag text lang s db
    else if state = .collectService then
      handle_collect_service rag text lang s db
    else if state = .collectDate then
      handle_collect_date rag td text lang s db
    else if state = .collectSlot then
      handle_collect_slot text lang s db
    else if state = .collectName then
      handle_collect_name text lang s db
    else if state = .collectPhone then
      handle_collect_phone text lang s db
    else if state = .confirmBooking then
      handle_confirm_booking text lang s db
    else if state = .bookingDone then
      process_message_fuel rag td fuel text (reset_booking s) db
    else ⟨.reply (R "fallback" lang []), s, db⟩

/-- Embedding of `process_message` proper.  Fuel 2 realises the actual recursion
depth: the BOOKING_DONE branch resets the session to IDLE before its
single recursive call, so the inner turn never recurses again. -/
def process_message (rag : String → String) (td : TodayCtx)
    (text : String) (s : BookingSession) (db : DBState) : TurnResult :=
  process_message_fuel rag td 2 text s db

/-! ## Fixed oracles and example data used to instantiate the claims -/

/-- A concrete RAG oracle with a recognisable answer. -/
def rag0 : String → String := fun _ => "RAG-ANSWER"

/-- A concrete calendar context. -/
def td0 : TodayCtx := ⟨"2025-03-19", "2025-03-20", "2025-03-26", "2025"⟩

/-- An empty store. -/
def db0 : DBState := ⟨[], [], 1⟩

/-- A mid-booking session: collecting the date, with history to go back
through. -/
def c3Session : BookingSession :=
  { roomId := "room-1", state := .collectDate,
    stateHistory := [.idle, .collectService], service := some "massage" }

/-- A fresh IDLE session with empty history. -/
def c4Session : BookingSession := { roomId := "room-1" }

/-- A session waiting for a service name. -/
def c9SvcSession : BookingSession :=
  { roomId := "room-1", state := .collectService }

/-- A session waiting for a date. -/
def c9DateSession : BookingSession :=
  { roomId := "room-1", state := .collectDate, service := some "massage" }

def c10Session : BookingSession :=
  { roomId := "room-1", state := .collectSlot, service := some "massage",
    date := some "2025-03-20",
    availableSlots := [⟨1, "2025-03-20", "10:00", "massage", false⟩,
                       ⟨2, "2025-03-20", "14:00", "massage", false⟩] }

/-! ## Hybrid retrieval — `embedding/embedding.py`

The FAISS semantic index, the BM25 lexical index and the CrossEncoder are
the black-box collaborators of the spec: the two candidate lists are inputs,
and the CrossEncoder is an oracle `predict : query → truncated text → ℚ`
(scores are real numbers produced by an external model; rationals embed
the ordering/arithmetic the pipeline performs on them). -/

/-- A document chunk with the metadata fields `retrieve` reads.
`metadata.get` misses are `none`. -/
structure Doc where
  pageContent : String
  sourceType : Option String
  pageName : Option String
  sourcePdf : Option String
deriving DecidableEq, Repr

def infoKeywords : List String :=
  ["how", "what", "when", "where", "can i", "wie kann",
   "book", "appointment", "termin", "buchen", "contact",
   "phone", "email", "opening hours", "services", "treatment",
   "cost", "price", "insurance", "process", "procedure",
   "öffnungszeiten", "kontakt", "telefon", "angebot"]

def formKeywords : List String :=
  ["registration", "anmeldung", "form", "formular",
   "documents needed", "what information", "fill out",
   "patient form", "which documents", "bring to appointment"]

/-- Embedding of `classify_query_intent`: count informational and form keyword hits in
the case-folded query and compare. -/
def classify_query_intent (query : String) : String :=
  let qLower := pyLower query
  let infoCount := infoKeywords.countP fun kw => pySubstr kw qLower
  let formCount := formKeywords.countP fun kw => pySubstr kw qLower
  if infoCount > formCount then "information"
  else if formCount > infoCount then "form"
  else "general"

/-- Whitespace collapsing for `normalize_query`. -/
def collapseWsAux : List Char → Bool → List Char
  | [], _ => []
  | c :: rest, prevWs =>
    if c.isWhitespace then
      (if prevWs then collapseWsAux rest true else ' ' :: collapseWsAux rest true)
    else c :: collapseWsAux rest false

def normalize_query (query : String) : String :=
  let q := pyLower (pyStrip query)
  pyStrip (String.mk (collapseWsAux q.toList false))

/-- The additive web boost selected by the query intent
(INFORMATION → +3.0, FORM → +0.0, otherwise +1.5). -/
def web_boost (query : String) : ℚ :=
  let intent := classify_query_intent query
  if intent = "information" then 3
  else if intent = "form" then 0
  else 3 / 2

def RELEVANCE_THRESHOLD : ℚ := -5 / 2

def CANDIDATE_MULTIPLIER : Nat := 4

def RERANKER_DOC_MAX_CHARS : Nat := 450

/-- Embedding of `_deduplicate`: drop candidates whose `page_content` was already
seen, keeping first occurrences in order (Python hashes the content;
content equality embeds that). -/
def dedupAux (seen : List String) : List Doc → List Doc
  | [] => []
  | d :: rest =>
    if d.pageContent ∈ seen then dedupAux seen rest
    else d :: dedupAux (d.pageContent :: seen) rest

def deduplicate (docs : List Doc) : List Doc :=
  dedupAux [] docs

/-- Embedding of `_truncate_for_rerank`: strip, cap at `RERANKER_DOC_MAX_CHARS`
characters breaking at the last space (falling back to the hard cut when
the cut contains no space), and map effectively-empty text to " ". -/
def truncate_for_rerank (text : String) : String :=
  if pyStrip text = "" then " "
  else
    let t := pyStrip text
    if t.length ≤ RERANKER_DOC_MAX_CHARS then t
    else
      let cut := t.toList.take RERANKER_DOC_MAX_CHARS
      let beforeLastSpace := ((cut.reverse.dropWhile fun c => c ≠ ' ').drop 1).reverse
      if beforeLastSpace = [] then String.mk cut else String.mk beforeLastSpace

def hoursTerms : List String :=
  ["opening hours", "open hours", "öffnungszeiten", "oeffnungszeiten",
   "when is", "wann", "available", "availability", "open",
   "geöffnet", "geoeffnet"]

def wants_hours (query : String) : Bool :=
  hoursTerms.any fun t => pySubstr t (pyLower query)

/-- One attempt of the `HH:MM` pattern (1-2 digits, colon, 2 digits,
word boundaries) used by the heuristic fallback. -/
def hhmmAttempt (l : List Char) : Option Unit :=
  (digits12 l).findSome? fun dp =>
    match dp.2 with
    | c :: m1 :: m2 :: r2 =>
      if c = ':' ∧ m1.isDigit ∧ m2.isDigit ∧ boundaryAfter r2 = true then some ()
      else none
    | _ => none

def containsTimePattern (content : String) : Bool :=
  (scanLeftmost hhmmAttempt content.toList false).isSome

/-- Python `a or b or ""` over the two optional metadata strings. -/
def orFalsy (a b : Option String) : String :=
  match a with
  | some s =>
    if s = "" then
      match b with
      | some p => p
      | none => ""
    else s
  | none =>
    match b with
    | some p => p
    | none => ""

/-- The per-document score of `_heuristic_sort_when_reranker_disabled`. -/
def heuristic_score (d : Doc) : Int :=
  let name := pyStrip (pyLower (orFalsy d.pageName d.sourcePdf))
  let content := pyLower d.pageContent
  (if pySubstr "functiotraining" name then 12 else 0)
  + (if pySubstr "angebot_functiotraining" name
       || pySubstr "en_angebot_functiotraining" name then 20 else 0)
  + (if pySubstr "öffnungszeiten" content || pySubstr "oeffnungszeiten" content
       || pySubstr "opening hours" content then 10 else 0)
  + (if pySubstr "trainingsfläche" content || pySubstr "trainingsflaeche" content
       || pySubstr "trainingsfla" content then 6 else 0)
  + (if containsTimePattern content then 3 else 0)

/-- The sort key `(-score, idx)` of the heuristic fallback, as a total
Boolean order (the index makes it antisymmetric, so the stable Python sort
and any sort agree). -/
def heuristicLe (a b : Int × Nat × Doc) : Bool :=
  a.1 > b.1 || (a.1 == b.1 && a.2.1 ≤ b.2.1)

/-- Embedding of `_heuristic_sort_when_reranker_disabled`. -/
def heuristic_sort_when_reranker_disabled (query : String) (docs : List Doc) : List Doc :=
  if ¬ wants_hours query ∨ docs = [] then docs
  else
    let scored := docs.enum.map fun p => (heuristic_score p.2, p.1, p.2)
    (scored.mergeSort heuristicLe).map (·.2.2)

/-- The `(doc, boosted score, original score)` triples of the reranking
path: CrossEncoder scores over the truncated text, with the additive web
boost applied only to `source_type == "web"` chunks. -/
def scoredTriples (predict : String → String → ℚ) (query : String) (webBoost : ℚ)
    (combined : List Doc) : List (Doc × ℚ × ℚ) :=
  let scores := combined.map fun d => predict query (truncate_for_rerank d.pageContent)
  let boosted := (combined.zip scores).map fun p =>
    if p.1.sourceType = some "web" then p.2 + webBoost else p.2
  combined.zip (boosted.zip scores)

/-- Embedding of `sorted(zip(combined, boosted_scores, scores), key=lambda x: x[1],
reverse=True)`: descending by boosted score alone, stable
(the Python sort keeps the original order of equal keys; `mergeSort` is
stable in the same sense). -/
def rankedLe (a b : Doc × ℚ × ℚ) : Bool :=
  b.2.1 ≤ a.2.1

def rankedOf (predict : String → String → ℚ) (query : String) (webBoost : ℚ)
    (combined : List Doc) : List (Doc × ℚ × ℚ) :=
  (scoredTriples predict query webBoost combined).mergeSort rankedLe

/-- STEP 5 of `retrieve`: threshold filter with graceful degradation. -/
def candidate_pool (predict : String → String → ℚ) (query : String) (webBoost : ℚ)
    (top_n : Nat) (combined : List Doc) : List (Doc × ℚ × ℚ) :=
  let ranked := rankedOf predict query webBoost combined
  let above := ranked.filter fun x => RELEVANCE_THRESHOLD ≤ x.2.1
  let below := ranked.filter fun x => x.2.1 < RELEVANCE_THRESHOLD
  if above = [] then ranked.take top_n
  else if top_n ≤ above.length then above.take top_n
  else above ++ below.take (top_n - above.length)

/-- Embedding of `retrieve(query, top_n)`: deduplicated union of the two candidate
lists; then either the heuristic fallback order (reranker disabled) or
the boosted CrossEncoder ranking with threshold filtering. -/
def retrieve (rerankerEnabled : Bool) (predict : String → String → ℚ)
    (query : String) (top_n : Nat) (faissDocs bm25Docs : List Doc) : List Doc :=
  let webBoost := web_boost query
  let combined := deduplicate (faissDocs ++ bm25Docs)
  if combined = [] then []
  else if ¬ rerankerEnabled then
    (heuristic_sort_when_reranker_disabled query combined).take top_n
  else
    (candidate_pool predict query webBoost top_n combined).map (·.1)

/-- A non-web chunk scored far below the relevance threshold. -/
def docP : Doc := ⟨"p", some "pdf", none, none⟩

/-- A CrossEncoder oracle that scores everything at -10, below the -2.5
threshold. -/
def predictLow : String → String → ℚ := fun _ _ => -10

/-- A web chunk with raw score 0 under `predict6`. -/
def docA : Doc := ⟨"a", some "web", none, none⟩

/-- A non-web chunk with raw score 3/2 under `predict6`. -/
def docB : Doc := ⟨"b", some "pdf", none, none⟩

def predict6 : String → String → ℚ := fun _ t => if t = "a" then 0 else 3 / 2

/-- Claim C1 (code bug exhibit).  The specification requires that a booking
attempt against a slot whose `is_booked` flag is already `1` reports
failure.  `book_appointment` never consults `is_booked`: its `UPDATE` has
no `is_booked = 0` guard and no affected-row check, and the `INSERT` has
no uniqueness constraint to stop it.  Evaluating the embedded store on an
already-booked slot shows the call succeeding and creating a new
confirmed appointment record — a silent double booking. -/
theorem c1_booked_slot_rebooking_succeeds :
    (book_appointment c1DB (some "Anna Muster") (some "+41791234567")
        (some "massage") (some "2025-03-20") (some "10:00") (some "room-1")).1.success
      = true
    ∧ (book_appointment c1DB (some "Anna Muster") (some "+41791234567")
        (some "massage") (some "2025-03-20") (some "10:00") (some "room-1")).2.appointments
      = [⟨1, "Anna Muster", "+41791234567", "massage", "2025-03-20", "10:00",
          "confirmed", some "room-1"⟩] := by
  constructor <;> rfl

/-- Claim C2.  The booking transaction is atomic: a successful call appends
exactly one appointment row and leaves every slot matching the booked
`(date, time, service)` with `is_booked = 1`; a failed call leaves the
store exactly as it was (the slot `UPDATE` is rolled back together with
the failed `INSERT`). -/
theorem c2_book_appointment_atomic (db : DBState)
    (name phone service dateStr timeStr roomId : Option String) :
    ((book_appointment db name phone service dateStr timeStr roomId).1.success = true →
      (∃ a, (book_appointment db name phone service dateStr timeStr roomId).2.appointments
          = db.appointments ++ [a])
      ∧ ∀ r ∈ (book_appointment db name phone service dateStr timeStr roomId).2.slots,
          slotMatches dateStr timeStr service r → r.isBooked = true)
    ∧ ((book_appointment db name phone service dateStr timeStr roomId).1.success = false →
      (book_appointment db name phone service dateStr timeStr roomId).2 = db) := by
  match hn : name, hp : phone, hs : service, hd : dateStr, ht : timeStr with
  | some n, some p, some sv, some d, some t =>
    refine ⟨fun _ => ⟨⟨_, rfl⟩, ?_⟩, fun hfail => by simp [book_appointment] at hfail⟩
    intro r hr hmatch
    simp only [book_appointment, List.mem_map] at hr
    obtain ⟨r₀, _, hr₀⟩ := hr
    by_cases hm : slotMatches (some d) (some t) (some sv) r₀
    · simp [hm] at hr₀
      simp [← hr₀]
    · simp [hm] at hr₀
      subst hr₀
      exact absurd hmatch hm
  | none, _, _, _, _ =>
    exact ⟨fun hsucc => by simp [book_appointment] at hsucc, fun _ => by simp [book_appointment]⟩
  | some _, none, _, _, _ =>
    exact ⟨fun hsucc => by simp [book_appointment] at hsucc, fun _ => by simp [book_appointment]⟩
  | some _, some _, none, _, _ =>
    exact ⟨fun hsucc => by simp [book_appointment] at hsucc, fun _ => by simp [book_appointment]⟩
  | some _, some _, some _, none, _ =>
    exact ⟨fun hsucc => by simp [book_appointment] at hsucc, fun _ => by simp [book_appointment]⟩
  | some _, some _, some _, some _, none =>
    exact ⟨fun hsucc => by simp [book_appointment] at hsucc, fun _ => by simp [book_appointment]⟩

/-- Witness for C2: a concrete successful booking appends one row and
books the matching slot, and a concrete failed booking (NULL name) leaves
the store untouched. -/
theorem c2_book_appointment_atomic_witness :
    ((∃ a, (book_appointment c2DB (some "Max Frisch") (some "+41790000000")
          (some "physiotherapy") (some "2025-03-21") (some "09:00") (some "r")).2.appointments
        = c2DB.appointments ++ [a])
      ∧ ∀ r ∈ (book_appointment c2DB (some "Max Frisch") (some "+41790000000")
          (some "physiotherapy") (some "2025-03-21") (some "09:00") (some "r")).2.slots,
          slotMatches (some "2025-03-21") (some "09:00") (some "physiotherapy") r →
            r.isBooked = true)
    ∧ (book_appointment c2DB none (some "+41790000000")
        (some "physiotherapy") (some "2025-03-21") (some "09:00") (some "r")).2 = c2DB := by
  refine ⟨(c2_book_appointment_atomic c2DB (some "Max Frisch") (some "+41790000000")
      (some "physiotherapy") (some "2025-03-21") (some "09:00") (some "r")).1 (by rfl),
    (c2_book_appointment_atomic c2DB none (some "+41790000000")
      (some "physiotherapy") (some "2025-03-21") (some "09:00") (some "r")).2 (by rfl)⟩

/-! ## Theorems

Structural facts about the embedded operations, followed by the claim
theorems C1 - C10 with their witnesses and counterexamples. -/

theorem go_back_transition_to (s : BookingSession) (ns : ConversationState) :
    go_back (transition_to s ns) = (true, s) := by
  cases s
  simp [go_back, transition_to]

/-- Claim C8.  For every session and every finite sequence of
`transition_to` calls followed by the same number of `go_back` calls,
each `go_back` succeeds and the session returns exactly to its starting
value — in particular the state and the full `state_history` content are
restored.  This holds because `transition_to` pushes the outgoing state
before switching and `go_back` pops exactly that entry. -/
theorem c8_state_history_round_trip (s : BookingSession) (l : List ConversationState) :
    goBackN (applyTransitions s l) l.length = s
    ∧ goBackNOk (applyTransitions s l) l.length = true := by
  induction l generalizing s with
  | nil => exact ⟨rfl, rfl⟩
  | cons x xs ih =>
    have h := ih (transition_to s x)
    have hstep : applyTransitions s (x :: xs) = applyTransitions (transition_to s x) xs := rfl
    constructor
    · show (go_back (goBackN (applyTransitions s (x :: xs)) xs.length)).2 = s
      rw [hstep, h.1, go_back_transition_to]
    · show (goBackNOk (applyTransitions s (x :: xs)) xs.length
          && (go_back (goBackN (applyTransitions s (x :: xs)) xs.length)).1) = true
      rw [hstep, h.1, h.2, go_back_transition_to]
      rfl

theorem prompt_for_current_state_raises (s : BookingSession) :
    prompt_for_current_state s = .error .attributeError := rfl

theorem update_language_state (text : String) (s : BookingSession) :
    (update_language text s).state = s.state := by
  unfold update_language
  dsimp only
  repeat' split
  all_goals rfl

theorem update_language_preFaqState (text : String) (s : BookingSession) :
    (update_language text s).preFaqState = s.preFaqState := by
  unfold update_language
  dsimp only
  repeat' split
  all_goals rfl

theorem update_language_stateHistory (text : String) (s : BookingSession) :
    (update_language text s).stateHistory = s.stateHistory := by
  unfold update_language
  dsimp only
  repeat' split
  all_goals rfl

theorem update_language_service (text : String) (s : BookingSession) :
    (update_language text s).service = s.service := by
  unfold update_language
  dsimp only
  repeat' split
  all_goals rfl

theorem update_language_time (text : String) (s : BookingSession) :
    (update_language text s).time = s.time := by
  unfold update_language
  dsimp only
  repeat' split
  all_goals rfl

theorem update_language_availableSlots (text : String) (s : BookingSession) :
    (update_language text s).availableSlots = s.availableSlots := by
  unfold update_language
  dsimp only
  repeat' split
  all_goals rfl

theorem update_language_language_of_start (text : String) (s : BookingSession)
    (h : s.state = .idle ∨ s.state = .greeting) :
    (update_language text s).language = detect_language text := by
  unfold update_language
  rw [if_pos h]
  dsimp only
  split
  · rfl
  · rename_i hne
    simp at hne
    exact hne.symm

theorem reset_booking_preFaqState (s : BookingSession) :
    (reset_booking s).preFaqState = none := rfl

theorem transition_to_preFaqState (s : BookingSession) (ns : ConversationState) :
    (transition_to s ns).preFaqState = s.preFaqState := rfl

theorem go_back_preFaqState (s : BookingSession) :
    (go_back s).2.preFaqState = s.preFaqState := by
  unfold go_back
  split <;> rfl

theorem go_back_time (s : BookingSession) :
    (go_back s).2.time = s.time := by
  unfold go_back
  split <;> rfl

theorem handle_start_pre (rag : String → String) (text lang : String)
    (s : BookingSession) (db : DBState) (h : s.preFaqState = none) :
    (handle_start rag text lang s db).session.preFaqState = none := by
  unfold handle_start
  split <;> simp [transition_to_preFaqState, h]

theorem handle_faq_pre (rag : String → String) (text lang : String)
    (s : BookingSession) (db : DBState) (h : s.preFaqState = none) :
    (handle_faq rag text lang s db).session.preFaqState = none := by
  unfold handle_faq
  dsimp only
  repeat' split
  all_goals simp_all

theorem handle_collect_service_pre (rag : String → String) (text lang : String)
    (s : BookingSession) (db : DBState) (h : s.preFaqState = none) :
    (handle_collect_service rag text lang s db).session.preFaqState = none := by
  unfold handle_collect_service
  dsimp only
  repeat' split
  all_goals simp_all [transition_to_preFaqState]

theorem handle_collect_date_pre (rag : String → String) (td : TodayCtx) (text lang : String)
    (s : BookingSession) (db : DBState) (h : s.preFaqState = none) :
    (handle_collect_date rag td text lang s db).session.preFaqState = none := by
  unfold handle_collect_date
  dsimp only
  repeat' split
  all_goals simp_all [transition_to_preFaqState]

theorem handle_collect_slot_pre (text lang : String)
    (s : BookingSession) (db : DBState) (h : s.preFaqState = none) :
    (handle_collect_slot text lang s db).session.preFaqState = none := by
  unfold handle_collect_slot
  repeat' split
  all_goals simp_all [transition_to_preFaqState]

theorem handle_collect_name_pre (text lang : String)
    (s : BookingSession) (db : DBState) (h : s.preFaqState = none) :
    (handle_collect_name text lang s db).session.preFaqState = none := by
  unfold handle_collect_name
  dsimp only
  repeat' split
  all_goals simp_all [transition_to_preFaqState]

theorem handle_collect_phone_pre (text lang : String)
    (s : BookingSession) (db : DBState) (h : s.preFaqState = none) :
    (handle_collect_phone text lang s db).session.preFaqState = none := by
  unfold handle_collect_phone
  dsimp only
  repeat' split
  all_goals simp_all [transition_to_preFaqState]

theorem handle_confirm_booking_pre (text lang : String)
    (s : BookingSession) (db : DBState) (h : s.preFaqState = none) :
    (handle_confirm_booking text lang s db).session.preFaqState = none := by
  unfold handle_confirm_booking
  dsimp only
  repeat' split
  all_goals simp_all [transition_to_preFaqState, reset_booking_preFaqState]

/-- After any turn, from a session with no pending interrupt memory, the
interrupt memory is still clear: every path that sets `pre_faq_state`
clears it again before returning (or before the turn aborts with an
exception). -/
theorem preFaq_cleared (rag : String → String) (td : TodayCtx) :
    ∀ (fuel : Nat) (text : String) (s : BookingSession) (db : DBState),
      s.preFaqState = none →
      (process_message_fuel rag td fuel text s db).session.preFaqState = none := by
  intro fuel
  induction fuel with
  | zero =>
    intro text s db h
    simpa [process_message_fuel] using h
  | succ n ih =>
    intro text s db h
    have hu : (update_language text s).preFaqState = none :=
      (update_language_preFaqState text s).trans h
    rw [process_message_fuel]
    by_cases h1 : detect_intent text = "cancel" ∧
        ¬(s.state = ConversationState.idle ∨ s.state = ConversationState.greeting)
    · rw [if_pos h1]
      rfl
    · rw [if_neg h1]
      by_cases h2 : detect_intent text = "go_back"
      · rw [if_pos h2]
        dsimp only
        by_cases h3 : (go_back (update_language text s)).1 = true
        · rw [if_pos h3, prompt_for_current_state_raises]
          simpa [go_back_preFaqState] using hu
        · rw [if_neg h3]
          simpa [go_back_preFaqState] using hu
      · rw [if_neg h2]
        by_cases h4 : s.state = ConversationState.idle ∨ s.state = ConversationState.greeting
        · rw [if_pos h4]
          exact handle_start_pre _ _ _ _ _ hu
        · rw [if_neg h4]
          by_cases h5 : s.state = ConversationState.faq
          · rw [if_pos h5]
            exact handle_faq_pre _ _ _ _ _ hu
          · rw [if_neg h5]
            by_cases h6 : s.state = ConversationState.collectService
            · rw [if_pos h6]
              exact handle_collect_service_pre _ _ _ _ _ hu
            · rw [if_neg h6]
              by_cases h7 : s.state = ConversationState.collectDate
              · rw [if_pos h7]
                exact handle_collect_date_pre _ _ _ _ _ _ hu
              · rw [if_neg h7]
                by_cases h8 : s.state = ConversationState.collectSlot
                · rw [if_pos h8]
                  exact handle_collect_slot_pre _ _ _ _ hu
                · rw [if_neg h8]
                  by_cases h9 : s.state = ConversationState.collectName
                  · rw [if_pos h9]
                    exact handle_collect_name_pre _ _ _ _ hu
                  · rw [if_neg h9]
                    by_cases h10 : s.state = ConversationState.collectPhone
                    · rw [if_pos h10]
                      exact handle_collect_phone_pre _ _ _ _ hu
                    · rw [if_neg h10]
                      by_cases h11 : s.state = ConversationState.confirmBooking
                      · rw [if_pos h11]
                        exact handle_confirm_booking_pre _ _ _ _ hu
                      · rw [if_neg h11]
                        by_cases h12 : s.state = ConversationState.bookingDone
                        · rw [if_pos h12]
                          exact ih _ _ _ rfl
                        · rw [if_neg h12]
                          exact hu

theorem handle_collect_service_interrupt (rag : String → String) (text lang : String)
    (s : BookingSession) (db : DBState)
    (hint : detect_intent text = "faq") (hsvc : detect_service text = none) :
    (handle_collect_service rag text lang s db).session.state = s.state
    ∧ (handle_collect_service rag text lang s db).session.preFaqState = none := by
  unfold handle_collect_service
  rw [if_pos ⟨hint, hsvc⟩]
  exact ⟨rfl, rfl⟩

theorem handle_collect_date_interrupt (rag : String → String) (td : TodayCtx)
    (text lang : String) (s : BookingSession) (db : DBState)
    (hint : detect_intent text = "faq") (hdate : detect_date td text = none) :
    (handle_collect_date rag td text lang s db).session.state = s.state
    ∧ (handle_collect_date rag td text lang s db).session.preFaqState = none := by
  unfold handle_collect_date
  rw [if_pos ⟨hint, hdate⟩]
  exact ⟨rfl, rfl⟩

theorem process_message_at_collect_service (rag : String → String) (td : TodayCtx)
    (text : String) (s : BookingSession) (db : DBState)
    (hstate : s.state = ConversationState.collectService)
    (hc : detect_intent text ≠ "cancel") (hg : detect_intent text ≠ "go_back") :
    process_message rag td text s db =
      handle_collect_service rag text (update_language text s).language
        (update_language text s) db := by
  unfold process_message
  rw [process_message_fuel]
  rw [if_neg (by simp [hc]), if_neg hg, if_neg (by simp [hstate]),
    if_neg (by simp [hstate]), if_pos hstate]

theorem process_message_at_collect_date (rag : String → String) (td : TodayCtx)
    (text : String) (s : BookingSession) (db : DBState)
    (hstate : s.state = ConversationState.collectDate)
    (hc : detect_intent text ≠ "cancel") (hg : detect_intent text ≠ "go_back") :
    process_message rag td text s db =
      handle_collect_date rag td text (update_language text s).language
        (update_language text s) db := by
  unfold process_message
  rw [process_message_fuel]
  rw [if_neg (by simp [hc]), if_neg hg, if_neg (by simp [hstate]),
    if_neg (by simp [hstate]), if_neg (by simp [hstate]), if_pos hstate]

theorem process_message_at_collect_slot (rag : String → String) (td : TodayCtx)
    (text : String) (s : BookingSession) (db : DBState)
    (hstate : s.state = ConversationState.collectSlot)
    (hc : detect_intent text ≠ "cancel") (hg : detect_intent text ≠ "go_back") :
    process_message rag td text s db =
      handle_collect_slot text (update_language text s).language
        (update_language text s) db := by
  unfold process_message
  rw [process_message_fuel]
  rw [if_neg (by simp [hc]), if_neg hg, if_neg (by simp [hstate]),
    if_neg (by simp [hstate]), if_neg (by simp [hstate]), if_neg (by simp [hstate]),
    if_pos hstate]

/-- Claim C3 (code bug exhibit).  The specification says a go-back with
non-empty history restores the popped state and re-emits its prompt, the
turn returning normally.  In the code, the prompt re-emission calls
`_prompt_for_current_state`, whose prompt dictionary references
`ConversationState.COLLECT_EMAIL` — a member that does not exist in the
enum — so the call raises `AttributeError` and no response is produced.
Here: a COLLECT_DATE session with history `[IDLE, COLLECT_SERVICE]`
receives "go back"; the state is popped to COLLECT_SERVICE but the turn
ends in the exception instead of the prompt. -/
theorem c3_go_back_raises_attribute_error :
    (process_message rag0 td0 "go back" c3Session db0).out = .exn .attributeError
    ∧ (process_message rag0 td0 "go back" c3Session db0).session.state
        = ConversationState.collectService := by
  constructor <;> rfl

/-- Claim C4 (counterexample).  The claim says that in IDLE/GREETING a
go-back keyword is NOT handled by the universal go-back branch but
classified as booking or FAQ.  In an IDLE session with empty history the
input "go back" is answered by the "already at the
beginning" message of the universal branch — not by the FAQ pipeline (whose answer here would be
`RAG-ANSWER`) — and the session history stays empty rather than gaining
the `[IDLE, FAQ]` entries the FAQ path would push. -/
theorem c4_goback_universal_in_idle_counterexample :
    (process_message rag0 td0 "go back" c4Session db0).out
      = .reply "We are already at the beginning. How can I help you?"
    ∧ (process_message rag0 td0 "go back" c4Session db0).out ≠ .reply (rag0 "go back")
    ∧ (process_message rag0 td0 "go back" c4Session db0).session.stateHistory = [] := by
  refine ⟨by decide, by decide, by decide⟩

/-- Claim C4 (amended).  Only the universal *cancel* branch is disabled in
IDLE/GREETING: there a cancel keyword falls through to the normal intent
logic (here the FAQ path, which leaves booking data untouched and ends in
IDLE).  The universal *go-back* branch, by contrast, is checked in every
state, including IDLE and GREETING: a go-back keyword with empty history
is answered by the "already at start" message with the state unchanged. -/
theorem c4_universal_transitions_amended (rag : String → String) (td : TodayCtx)
    (text : String) (s : BookingSession) (db : DBState)
    (hstate : s.state = ConversationState.idle ∨ s.state = ConversationState.greeting) :
    (detect_intent text = "cancel" →
      (process_message rag td text s db).out = .reply (rag text)
      ∧ (process_message rag td text s db).session.state = ConversationState.idle
      ∧ (process_message rag td text s db).session.service = s.service)
    ∧ (detect_intent text = "go_back" → s.stateHistory = [] →
      (process_message rag td text s db).out
        = .reply (R "at_beginning" (detect_language text) [])
      ∧ (process_message rag td text s db).session.state = s.state) := by
  constructor
  · intro hc
    by_cases hl : detect_language text = s.language
    · simp [process_message, process_message_fuel, handle_start, update_language,
        hc, hstate, hl, transition_to]
    · simp [process_message, process_message_fuel, handle_start, update_language,
        hc, hstate, hl, transition_to]
  · intro hg hh
    by_cases hl : detect_language text = s.language
    · simp [process_message, process_message_fuel, update_language, hg, hh, hstate, hl,
        go_back]
    · simp [process_message, process_message_fuel, update_language, hg, hh, hstate, hl,
        go_back]

/-- Witness for C4 (amended): in a concrete IDLE session, "cancel"
is answered by the RAG pipeline and "go back" by the
already-at-the-beginning message. -/
theorem c4_universal_transitions_amended_witness :
    ((process_message rag0 td0 "cancel" c4Session db0).out = .reply (rag0 "cancel")
      ∧ (process_message rag0 td0 "cancel" c4Session db0).session.state
          = ConversationState.idle
      ∧ (process_message rag0 td0 "cancel" c4Session db0).session.service
          = c4Session.service)
    ∧ ((process_message rag0 td0 "go back" c4Session db0).out
        = .reply (R "at_beginning" (detect_language "go back") [])
      ∧ (process_message rag0 td0 "go back" c4Session db0).session.state
          = c4Session.state) := by
  refine ⟨(c4_universal_transitions_amended rag0 td0 "cancel" c4Session db0
      (Or.inl rfl)).1 (by decide),
    (c4_universal_transitions_amended rag0 td0 "go back" c4Session db0
      (Or.inl rfl)).2 (by decide) rfl⟩

/-- Claim C9.  The session invariant on the interrupt memory: (a) a turn
started with `pre_faq_state = None` ends (normally or exceptionally) with
`pre_faq_state = None`, so between completed turns the memory is non-null
only transiently inside a turn — in particular the invariant
"`pre_faq_state` non-null only when `state == FAQ`" holds at every
observable point between turns of sessions created fresh (which start
with `None`); (b) `reset_booking` always clears it; (c) an FAQ interrupt
in COLLECT_SERVICE or COLLECT_DATE restores the saved state and clears
the memory before the turn returns. -/
theorem c9_pre_faq_invariant (rag : String → String) (td : TodayCtx)
    (text : String) (s : BookingSession) (db : DBState) :
    (s.preFaqState = none →
      (process_message rag td text s db).session.preFaqState = none)
    ∧ (reset_booking s).preFaqState = none
    ∧ (s.state = ConversationState.collectService →
        detect_intent text = "faq" → detect_service text = none →
        (process_message rag td text s db).session.state = ConversationState.collectService
        ∧ (process_message rag td text s db).session.preFaqState = none)
    ∧ (s.state = ConversationState.collectDate →
        detect_intent text = "faq" → detect_date td text = none →
        (process_message rag td text s db).session.state = ConversationState.collectDate
        ∧ (process_message rag td text s db).session.preFaqState = none) := by
  refine ⟨fun h => preFaq_cleared rag td 2 text s db h, rfl, ?_, ?_⟩
  · intro hstate hint hsvc
    have hc : detect_intent text ≠ "cancel" := by simp [hint]
    have hg : detect_intent text ≠ "go_back" := by simp [hint]
    rw [process_message_at_collect_service rag td text s db hstate hc hg]
    have hres := handle_collect_service_interrupt rag text
      (update_language text s).language (update_language text s) db hint hsvc
    rw [update_language_state] at hres
    rw [hstate] at hres
    exact hres
  · intro hstate hint hdate
    have hc : detect_intent text ≠ "cancel" := by simp [hint]
    have hg : detect_intent text ≠ "go_back" := by simp [hint]
    rw [process_message_at_collect_date rag td text s db hstate hc hg]
    have hres := handle_collect_date_interrupt rag td text
      (update_language text s).language (update_language text s) db hint hdate
    rw [update_language_state] at hres
    rw [hstate] at hres
    exact hres

/-- Witness for C9: a concrete FAQ question asked while collecting the
service (and while collecting the date) is answered with the state
restored and no interrupt memory left behind. -/
theorem c9_pre_faq_invariant_witness :
    ((process_message rag0 td0 "What are your opening hours?" c9SvcSession db0).session.preFaqState
        = none)
    ∧ (reset_booking c9SvcSession).preFaqState = none
    ∧ ((process_message rag0 td0 "What are your opening hours?" c9SvcSession db0).session.state
          = ConversationState.collectService
      ∧ (process_message rag0 td0 "What are your opening hours?" c9SvcSession db0).session.preFaqState
          = none)
    ∧ ((process_message rag0 td0 "What are your opening hours?" c9DateSession db0).session.state
          = ConversationState.collectDate
      ∧ (process_message rag0 td0 "What are your opening hours?" c9DateSession db0).session.preFaqState
          = none) := by
  refine ⟨(c9_pre_faq_invariant rag0 td0 "What are your opening hours?" c9SvcSession db0).1 rfl,
    (c9_pre_faq_invariant rag0 td0 "What are your opening hours?" c9SvcSession db0).2.1,
    (c9_pre_faq_invariant rag0 td0 "What are your opening hours?" c9SvcSession db0).2.2.1
      rfl (by decide) (by decide),
    (c9_pre_faq_invariant rag0 td0 "What are your opening hours?" c9DateSession db0).2.2.2
      rfl (by decide) (by decide)⟩

theorem timeNumericMatch_mem (slots : List SlotRow) (hour minute t : String)
    (h : timeNumericMatch slots hour minute = some t) :
    t ∈ slots.map SlotRow.time := by
  unfold timeNumericMatch at h
  dsimp only at h
  cases hf : slots.find? (fun s => s.time == hour ++ ":" ++ minute) with
  | some slot =>
    rw [hf] at h
    have hslot := List.find?_some hf
    have hmem := List.mem_of_find?_eq_some hf
    simp only [Option.some.injEq] at h
    subst h
    rw [beq_iff_eq] at hslot
    rw [← hslot]
    exact List.mem_map_of_mem SlotRow.time hmem
  | none =>
    rw [hf] at h
    rw [Option.map_eq_some'] at h
    obtain ⟨slot, hfind, ht⟩ := h
    subst ht
    exact List.mem_map_of_mem SlotRow.time (List.mem_of_find?_eq_some hfind)

theorem timeWordMatch_mem (textLower : String) (slots : List SlotRow) (t : String)
    (h : timeWordMatch textLower slots = some t) :
    t ∈ slots.map SlotRow.time := by
  unfold timeWordMatch at h
  obtain ⟨wh, hmemw, hw⟩ := List.exists_of_findSome?_eq_some h
  by_cases hsub : pySubstr wh.1 textLower = true
  · rw [if_pos hsub] at hw
    rw [Option.map_eq_some'] at hw
    obtain ⟨slot, hfind, ht⟩ := hw
    subst ht
    exact List.mem_map_of_mem SlotRow.time (List.mem_of_find?_eq_some hfind)
  · rw [if_neg hsub] at hw
    exact absurd hw (by simp)

theorem detect_time_mem (text : String) (slots : List SlotRow) (t : String)
    (h : detect_time text slots = some t) : t ∈ slots.map SlotRow.time := by
  unfold detect_time at h
  split at h
  · exact absurd h (by simp)
  · dsimp only at h
    split at h
    · rename_i t' hnum
      simp only [Option.some.injEq] at h
      subst h
      split at hnum
      · exact timeNumericMatch_mem _ _ _ _ hnum
      · exact absurd hnum (by simp)
    · split at h
      · rename_i t' hword
        simp only [Option.some.injEq] at h
        subst h
        exact timeWordMatch_mem _ _ _ hword
      · split at h
        · rename_i s0 rest
          split at h
          · simp only [Option.some.injEq] at h
            subst h
            simp
          · exact absurd h (by simp)
        · exact absurd h (by simp)

theorem handle_collect_slot_time (text lang : String) (s : BookingSession) (db : DBState) :
    (handle_collect_slot text lang s db).session.time = s.time
    ∨ ∃ t, (handle_collect_slot text lang s db).session.time = some t
        ∧ t ∈ s.availableSlots.map SlotRow.time := by
  unfold handle_collect_slot
  cases hdt : detect_time text s.availableSlots with
  | none => left; rfl
  | some t =>
    right
    exact ⟨t, rfl, detect_time_mem _ _ _ hdt⟩

/-- Claim C10.  Every value `detect_time` returns is the `time` field of
some slot in the list it was given (across all four matching modes), and
consequently a COLLECT_SLOT turn either leaves `session.time` unchanged,
clears it (universal cancel), or sets it to the time of one of the slots
previously stored in `session.available_slots` for the chosen date and
service. -/
theorem c10_accepted_time_is_offered :
    (∀ (text : String) (slots : List SlotRow) (t : String),
      detect_time text slots = some t → t ∈ slots.map SlotRow.time)
    ∧ (∀ (rag : String → String) (td : TodayCtx) (text : String)
        (s : BookingSession) (db : DBState),
        s.state = ConversationState.collectSlot →
        (process_message rag td text s db).session.time = s.time
        ∨ (process_message rag td text s db).session.time = none
        ∨ ∃ t, (process_message rag td text s db).session.time = some t
            ∧ t ∈ s.availableSlots.map SlotRow.time) := by
  refine ⟨detect_time_mem, ?_⟩
  intro rag td text s db hstate
  by_cases h1 : detect_intent text = "cancel" ∧
      ¬(s.state = ConversationState.idle ∨ s.state = ConversationState.greeting)
  · unfold process_message
    rw [process_message_fuel, if_pos h1]
    right; left; rfl
  · by_cases h2 : detect_intent text = "go_back"
    · unfold process_message
      rw [process_message_fuel, if_neg h1, if_pos h2]
      dsimp only
      by_cases h3 : (go_back (update_language text s)).1 = true
      · rw [if_pos h3, prompt_for_current_state_raises]
        left
        show (go_back (update_language text s)).2.time = s.time
        rw [go_back_time, update_language_time]
      · rw [if_neg h3]
        left
        show (go_back (update_language text s)).2.time = s.time
        rw [go_back_time, update_language_time]
    · have hc : detect_intent text ≠ "cancel" := by
        intro hcc
        exact h1 ⟨hcc, by simp [hstate]⟩
      rw [process_message_at_collect_slot rag td text s db hstate hc h2]
      have hres := handle_collect_slot_time text (update_language text s).language
        (update_language text s) db
      rw [update_language_time, update_language_availableSlots] at hres
      rcases hres with hsame | ⟨t, ht, hmem⟩
      · left; exact hsame
      · right; right; exact ⟨t, ht, hmem⟩

/-- Witness for C10: "at 10 please" against two offered massage slots
selects a stored slot time. -/
theorem c10_accepted_time_is_offered_witness :
    ("10:00" ∈ [⟨1, "2025-03-20", "10:00", "massage", false⟩,
        (⟨2, "2025-03-20", "14:00", "massage", false⟩ : SlotRow)].map SlotRow.time)
    ∧ ((process_message rag0 td0 "at 10 please" c10Session db0).session.time
          = c10Session.time
      ∨ (process_message rag0 td0 "at 10 please" c10Session db0).session.time = none
      ∨ ∃ t, (process_message rag0 td0 "at 10 please" c10Session db0).session.time = some t
          ∧ t ∈ c10Session.availableSlots.map SlotRow.time) := by
  refine ⟨c10_accepted_time_is_offered.1 "at 10 please"
      [⟨1, "2025-03-20", "10:00", "massage", false⟩,
       ⟨2, "2025-03-20", "14:00", "massage", false⟩] "10:00" (by decide),
    c10_accepted_time_is_offered.2 rag0 td0 "at 10 please" c10Session db0 rfl⟩

theorem scoredTriples_eq (predict : String → String → ℚ) (query : String) (webBoost : ℚ) :
    ∀ combined : List Doc,
      scoredTriples predict query webBoost combined = combined.map fun d =>
        (d,
         (if d.sourceType = some "web" then
            predict query (truncate_for_rerank d.pageContent) + webBoost
          else predict query (truncate_for_rerank d.pageContent)),
         predict query (truncate_for_rerank d.pageContent)) := by
  intro combined
  induction combined with
  | nil => rfl
  | cons d rest ih =>
    simp only [scoredTriples, List.map_cons, List.zip_cons_cons] at ih ⊢
    simp_all

theorem scoredTriples_length (predict : String → String → ℚ) (query : String)
    (webBoost : ℚ) (combined : List Doc) :
    (scoredTriples predict query webBoost combined).length = combined.length := by
  rw [scoredTriples_eq, List.length_map]

theorem rankedOf_length (predict : String → String → ℚ) (query : String)
    (webBoost : ℚ) (combined : List Doc) :
    (rankedOf predict query webBoost combined).length = combined.length := by
  rw [rankedOf, List.length_mergeSort, scoredTriples_length]

theorem heuristic_sort_length (query : String) (docs : List Doc) :
    (heuristic_sort_when_reranker_disabled query docs).length = docs.length := by
  unfold heuristic_sort_when_reranker_disabled
  split
  · rfl
  · simp [List.length_mergeSort]

theorem candidate_pool_spec (predict : String → String → ℚ) (query : String)
    (webBoost : ℚ) (top_n : Nat) (combined : List Doc)
    (htop : 0 < top_n) (hne : combined ≠ []) :
    candidate_pool predict query webBoost top_n combined ≠ []
    ∧ (candidate_pool predict query webBoost top_n combined).length ≤ top_n := by
  unfold candidate_pool
  have hrlen : (rankedOf predict query webBoost combined).length = combined.length :=
    rankedOf_length predict query webBoost combined
  have hrne : rankedOf predict query webBoost combined ≠ [] := by
    intro hcon
    rw [hcon] at hrlen
    exact hne (List.eq_nil_of_length_eq_zero hrlen.symm)
  dsimp only
  split
  · constructor
    · simp [List.take_eq_nil_iff, hrne]
      omega
    · simp [List.length_take]
  · rename_i habove
    split
    · constructor
      · simp [List.take_eq_nil_iff, habove]
        omega
      · simp [List.length_take]
    · rename_i hlen
      constructor
      · simp [habove]
      · simp only [List.length_append, List.length_take]
        omega

/-- Claim C5.  Graceful degradation of `retrieve`: with a positive desired
count, (i) whenever deduplication leaves at least one candidate the
result is non-empty and at most `top_n` long (in both the reranking and
the heuristic-fallback paths); (ii) the result is empty exactly when
deduplication leaves nothing; (iii) in the reranking path, when every
boosted scores of all candidates are below the relevance threshold, the result is
the top `top_n` of the boosted-score ranking, threshold notwithstanding. -/
theorem c5_threshold_fallback (rerankerEnabled : Bool) (predict : String → String → ℚ)
    (query : String) (top_n : Nat) (faissDocs bm25Docs : List Doc)
    (htop : 0 < top_n) :
    (deduplicate (faissDocs ++ bm25Docs) ≠ [] →
      retrieve rerankerEnabled predict query top_n faissDocs bm25Docs ≠ []
      ∧ (retrieve rerankerEnabled predict query top_n faissDocs bm25Docs).length ≤ top_n)
    ∧ (deduplicate (faissDocs ++ bm25Docs) = [] →
      retrieve rerankerEnabled predict query top_n faissDocs bm25Docs = [])
    ∧ (rerankerEnabled = true →
      deduplicate (faissDocs ++ bm25Docs) ≠ [] →
      (∀ x ∈ rankedOf predict query (web_boost query) (deduplicate (faissDocs ++ bm25Docs)),
        x.2.1 < RELEVANCE_THRESHOLD) →
      retrieve rerankerEnabled predict query top_n faissDocs bm25Docs =
        ((rankedOf predict query (web_boost query)
            (deduplicate (faissDocs ++ bm25Docs))).take top_n).map (·.1)) := by
  refine ⟨?_, ?_, ?_⟩
  · intro hne
    unfold retrieve
    rw [if_neg hne]
    by_cases hre : rerankerEnabled
    · simp only [hre]
      rw [if_neg (by simp)]
      have hp := candidate_pool_spec predict query (web_boost query) top_n
        (deduplicate (faissDocs ++ bm25Docs)) htop hne
      constructor
      · simpa using hp.1
      · simpa using hp.2
    · simp only [hre]
      rw [if_pos (by simp)]
      have hlen := heuristic_sort_length query (deduplicate (faissDocs ++ bm25Docs))
      constructor
      · simp only [ne_eq, List.take_eq_nil_iff]
        intro hcon
        rcases hcon with h | h
        · omega
        · rw [h] at hlen
          exact hne (List.eq_nil_of_length_eq_zero hlen.symm)
      · simp [List.length_take]
  · intro hnil
    unfold retrieve
    rw [if_pos hnil]
  · intro hre hne hall
    unfold retrieve
    rw [if_neg hne]
    subst hre
    rw [if_neg (by simp)]
    have habove : (rankedOf predict query (web_boost query)
        (deduplicate (faissDocs ++ bm25Docs))).filter
          (fun x => decide (RELEVANCE_THRESHOLD ≤ x.2.1)) = [] := by
      rw [List.filter_eq_nil_iff]
      intro x hx
      simp only [decide_eq_true_eq, not_le]
      exact hall x hx
    unfold candidate_pool
    dsimp only
    rw [habove]
    rw [if_pos rfl]

/-- Witness for C5: a single below-threshold candidate is still
returned (and empty inputs return the empty list). -/
theorem c5_threshold_fallback_witness :
    (retrieve true predictLow "hello" 2 [docP] [] ≠ []
      ∧ (retrieve true predictLow "hello" 2 [docP] []).length ≤ 2)
    ∧ retrieve true predictLow "hello" 2 [] [] = []
    ∧ retrieve true predictLow "hello" 2 [docP] [] =
        ((rankedOf predictLow "hello" (web_boost "hello")
            (deduplicate ([docP] ++ []))).take 2).map (·.1) := by
  have hranked : rankedOf predictLow "hello" (web_boost "hello")
      (deduplicate ([docP] ++ [])) = [(docP, -10, -10)] := by
    rw [show deduplicate ([docP] ++ []) = [docP] from by decide]
    rw [rankedOf, scoredTriples_eq]
    simp [docP, predictLow]
  refine ⟨(c5_threshold_fallback true predictLow "hello" 2 [docP] []
      (by norm_num)).1 (by decide),
    (c5_threshold_fallback true predictLow "hello" 2 [] [] (by norm_num)).2.1 rfl,
    (c5_threshold_fallback true predictLow "hello" 2 [docP] [] (by norm_num)).2.2
      rfl (by decide) ?_⟩
  intro x hx
  rw [hranked] at hx
  simp only [List.mem_singleton] at hx
  rw [hx]
  norm_num [RELEVANCE_THRESHOLD]

theorem rankedLe_trans (a b c : Doc × ℚ × ℚ)
    (hab : rankedLe a b) (hbc : rankedLe b c) : rankedLe a c := by
  simp only [rankedLe, decide_eq_true_eq] at *
  exact le_trans hbc hab

theorem rankedLe_total (a b : Doc × ℚ × ℚ) : rankedLe a b || rankedLe b a := by
  simp only [rankedLe, Bool.or_eq_true, decide_eq_true_eq]
  exact le_total b.2.1 a.2.1

theorem c6_scored : scoredTriples predict6 "" (3 / 2) [docA, docB] =
    [(docA, 3 / 2, 0), (docB, 3 / 2, 3 / 2)] := by
  rw [scoredTriples_eq]
  simp only [List.map_cons, List.map_nil]
  rw [show truncate_for_rerank docA.pageContent = "a" from by decide,
      show truncate_for_rerank docB.pageContent = "b" from by decide]
  simp [docA, docB, predict6]

theorem c6_web_boost_empty : web_boost "" = 3 / 2 := by
  simp [web_boost, show classify_query_intent "" = "general" from by decide]

theorem c6_ranked : rankedOf predict6 "" (web_boost "") [docA, docB] =
    [(docA, 3 / 2, 0), (docB, 3 / 2, 3 / 2)] := by
  rw [rankedOf, c6_web_boost_empty, c6_scored]
  rw [List.mergeSort_of_sorted]
  simp [rankedLe]

/-- Claim C6 (counterexample).  The claim says candidates with equal
boosted score are ordered by their pre-boost score.  Take a web chunk
with raw score 0 (boosted to 3/2 by the GENERAL intent boost) listed
before a non-web chunk with raw score 3/2 (boosted score also 3/2): the
boosted scores tie, the pre-boost score of the first chunk (0) is
strictly below that of the second (3/2), yet the ranking — and the final `retrieve`
output — keeps the original order instead of putting the higher
pre-boost candidate first: the sort key is the boosted score alone. -/
theorem c6_tie_order_counterexample :
    rankedOf predict6 "" (web_boost "") [docA, docB] =
        [(docA, 3 / 2, 0), (docB, 3 / 2, 3 / 2)]
    ∧ retrieve true predict6 "" 2 [docA, docB] [] = [docA, docB]
    ∧ (0 : ℚ) < 3 / 2 := by
  refine ⟨c6_ranked, ?_, by norm_num⟩
  unfold retrieve candidate_pool
  rw [show deduplicate ([docA, docB] ++ []) = [docA, docB] from by decide]
  rw [if_neg (by decide)]
  rw [if_neg (by simp)]
  dsimp only
  rw [c6_ranked]
  rw [List.filter_cons, List.filter_cons, List.filter_nil]
  norm_num [RELEVANCE_THRESHOLD]

/-- Claim C6 (amended).  In the reranking path the candidates are sorted
descending on the boosted score alone; any two candidates with equal
boosted score keep their relative order from the deduplicated merge
(the Python sort is stable), and the pre-boost score is carried only for
diagnostics — it does not participate in the ordering. -/
theorem c6_rank_descending_stable (predict : String → String → ℚ) (query : String)
    (wb : ℚ) (combined : List Doc) :
    (rankedOf predict query wb combined).Pairwise (fun a b => b.2.1 ≤ a.2.1)
    ∧ (∀ x y : Doc × ℚ × ℚ, x.2.1 = y.2.1 →
        [x, y].Sublist (scoredTriples predict query wb combined) →
        [x, y].Sublist (rankedOf predict query wb combined)) := by
  constructor
  · have hs := List.sorted_mergeSort rankedLe_trans rankedLe_total
      (scoredTriples predict query wb combined)
    refine hs.imp ?_
    intro a b hab
    simpa [rankedLe] using hab
  · intro x y hxy hsub
    exact List.pair_sublist_mergeSort rankedLe_trans rankedLe_total
      (by simp [rankedLe, hxy]) hsub

/-- Witness for C6 (amended): the tied pair keeps its merge order inside
the ranking. -/
theorem c6_rank_descending_stable_witness :
    (rankedOf predict6 "" (3 / 2) [docA, docB]).Pairwise (fun a b => b.2.1 ≤ a.2.1)
    ∧ [(docA, (3 / 2 : ℚ), (0 : ℚ)), (docB, 3 / 2, 3 / 2)].Sublist
        (rankedOf predict6 "" (3 / 2) [docA, docB]) := by
  have hsub : [(docA, (3 / 2 : ℚ), (0 : ℚ)), (docB, 3 / 2, 3 / 2)].Sublist
      (scoredTriples predict6 "" (3 / 2) [docA, docB]) := by
    rw [c6_scored]
  exact ⟨(c6_rank_descending_stable predict6 "" (3 / 2) [docA, docB]).1,
    (c6_rank_descending_stable predict6 "" (3 / 2) [docA, docB]).2
      (docA, 3 / 2, 0) (docB, 3 / 2, 3 / 2) rfl hsub⟩

/-- Claim C7.  The intent classifier returns INFORMATION exactly when the
informational keyword count exceeds the form count, FORM exactly when
the form count exceeds the informational count, and GENERAL exactly when
they tie; the selected additive boost is +3.0 / +0.0 / +1.5
respectively; and the boost is added only to candidates whose
`source_type` is `web`, all other candidates keeping their raw score. -/
theorem c7_intent_classification_and_boost (q : String) :
    ((classify_query_intent q = "information" ↔
      infoKeywords.countP (fun kw => pySubstr kw (pyLower q))
        > formKeywords.countP (fun kw => pySubstr kw (pyLower q)))
    ∧ (classify_query_intent q = "form" ↔
      formKeywords.countP (fun kw => pySubstr kw (pyLower q))
        > infoKeywords.countP (fun kw => pySubstr kw (pyLower q)))
    ∧ (classify_query_intent q = "general" ↔
      infoKeywords.countP (fun kw => pySubstr kw (pyLower q))
        = formKeywords.countP (fun kw => pySubstr kw (pyLower q))))
    ∧ ((classify_query_intent q = "information" → web_boost q = 3)
      ∧ (classify_query_intent q = "form" → web_boost q = 0)
      ∧ (classify_query_intent q = "general" → web_boost q = 3 / 2))
    ∧ (∀ (predict : String → String → ℚ) (wb : ℚ) (combined : List Doc),
      scoredTriples predict q wb combined = combined.map fun d =>
        (d,
         (if d.sourceType = some "web" then
            predict q (truncate_for_rerank d.pageContent) + wb
          else predict q (truncate_for_rerank d.pageContent)),
         predict q (truncate_for_rerank d.pageContent))) := by
  refine ⟨?_, ⟨fun h => by simp [web_boost, h], fun h => by simp [web_boost, h],
      fun h => by simp [web_boost, h]⟩,
    fun predict wb combined => scoredTriples_eq predict q wb combined⟩
  unfold classify_query_intent
  dsimp only
  by_cases h1 : infoKeywords.countP (fun kw => pySubstr kw (pyLower q))
      > formKeywords.countP (fun kw => pySubstr kw (pyLower q))
  · rw [if_pos h1]
    exact ⟨⟨fun _ => h1, fun _ => rfl⟩,
      ⟨fun h => absurd h (by decide), fun h => by omega⟩,
      ⟨fun h => absurd h (by decide), fun h => by omega⟩⟩
  · rw [if_neg h1]
    by_cases h2 : formKeywords.countP (fun kw => pySubstr kw (pyLower q))
        > infoKeywords.countP (fun kw => pySubstr kw (pyLower q))
    · rw [if_pos h2]
      exact ⟨⟨fun h => absurd h (by decide), fun h => by omega⟩,
        ⟨fun _ => h2, fun _ => rfl⟩,
        ⟨fun h => absurd h (by decide), fun h => by omega⟩⟩
    · rw [if_neg h2]
      exact ⟨⟨fun h => absurd h (by decide), fun h => by omega⟩,
        ⟨fun h => absurd h (by decide), fun h => by omega⟩,
        ⟨fun _ => by omega, fun _ => rfl⟩⟩

/-- Witness for C7: an informational query gets +3.0, a form query
+0.0, and a neutral query +1.5. -/
theorem c7_intent_classification_and_boost_witness :
    web_boost "how much does physiotherapy cost" = 3
    ∧ web_boost "registration form" = 0
    ∧ web_boost "hello there" = 3 / 2 := by
  exact ⟨(c7_intent_classification_and_boost "how much does physiotherapy cost").2.1.1
      (by decide),
    (c7_intent_classification_and_boost "registration form").2.1.2.1 (by decide),
    (c7_intent_classification_and_boost "hello there").2.1.2.2 (by decide)⟩
